import Mathlib

/-!
Shallow embedding of `mlir/include/mlir/Tools/mlir-opt/MlirOptMain.h`:
the `MlirOptMainConfig` fluent configuration class for the mlir-opt driver
and the `asMainReturnCode` helper. C++ member functions become Lean
functions on an explicit configuration value; the fluent setters, which in
C++ mutate the object and return `*this`, become functions returning the
updated configuration, so the frame properties of a setter are stated as
equalities between the getters of the returned configuration and those of
the original one. Collaborator types that are only declared in the header
(`LogicalResult`, `PassManager`, `PassPipelineCLParser`,
`SourceMgrDiagnosticVerifierHandler::Level`, `tracing::DebugConfig`) are
modelled from the spec, as marked on each definition.
-/

namespace mlir

/-- Modelled from the spec: `LogicalResult` (declared in
`mlir/Support/LogicalResult.h`, whose definition is not under `src/`) is
the success/failure flag the driver aggregates: a wrapper around a single
boolean queried by `succeeded` and `failed`. -/
structure LogicalResult where
  isSuccess : Bool
  deriving DecidableEq, Repr

/-- Builds a `LogicalResult` carrying success (the free function
`mlir::success()`). -/
def success : LogicalResult := ⟨true⟩

/-- Builds a `LogicalResult` carrying failure (the free function
`mlir::failure()`). -/
def failure : LogicalResult := ⟨false⟩

/-- Queries whether a `LogicalResult` carries success. -/
def LogicalResult.succeeded (r : LogicalResult) : Bool := r.isSuccess

/-- Queries whether a `LogicalResult` carries failure. -/
def LogicalResult.failed (r : LogicalResult) : Bool := !r.isSuccess

/-- Modelled from the spec: a `PassManager` (only forward-declared in
`MlirOptMain.h`) holds the ordered sequence of pass stages to execute over
an IR tree; here it is the list of stage names, enough to observe whether
a setup step modified it. -/
structure PassManager where
  passes : List String := []
  deriving DecidableEq, Repr

/-- Modelled from the spec: the debugging-hook configuration
(`tracing::DebugConfig`, from `mlir/Debug/CLOptionsSetup.h`, not under
`src/`); its contents do not affect any claim, so it is an abstract
token. -/
structure DebugConfig where
  deriving DecidableEq, Repr

/-- Modelled from the spec: a location breakpoint manager
(`tracing::BreakpointManager`, not under `src/`), only ever stored in the
`logActionLocationFilter` list and never read by the header's code. -/
structure BreakpointManager where
  deriving DecidableEq, Repr

/-- Modelled from the spec: a pre-parsed textual pass-pipeline description
(`PassPipelineCLParser`, only forward-declared in `MlirOptMain.h`);
running it populates a pass manager and reports success or failure. -/
structure PassPipelineCLParser where
  run : PassManager → LogicalResult × PassManager

namespace SourceMgrDiagnosticVerifierHandler

/-- Modelled from the spec: the diagnostic-verification level of
`SourceMgrDiagnosticVerifierHandler` (declared in a header not under
`src/`), the `verify-diagnostics {none, loose, strict}` option surface.
`None` disables the diagnostic verifier. -/
inductive Level where
  | None
  | Loose
  | Strict
  deriving DecidableEq, Repr

end SourceMgrDiagnosticVerifierHandler

/-- Verbosity level of the diagnostic filter, from `MlirOptMain.h` lines
35-39: `ErrorsOnly = 0`, `ErrorsAndWarnings`, `ErrorsWarningsAndRemarks`. -/
inductive VerbosityLevel where
  | ErrorsOnly
  | ErrorsAndWarnings
  | ErrorsWarningsAndRemarks
  deriving DecidableEq, Repr

/-- Configuration options for the mlir-opt tool, from `MlirOptMain.h`
lines 48-302. Field names, order and default member initializers follow
the protected section of the C++ class (lines 227-302); the empty
`std::function` default of `passPipelineCallback` is `none`, and
`std::optional<int64_t>` is `Option Int`. -/
structure MlirOptMainConfig where
  allowUnregisteredDialectsFlag : Bool := false
  debugConfig : DebugConfig := {}
  diagnosticVerbosityLevelFlag : VerbosityLevel :=
    VerbosityLevel.ErrorsWarningsAndRemarks
  dumpPassPipelineFlag : Bool := false
  emitBytecodeFlag : Bool := false
  elideResourceDataFromBytecodeFlag : Bool := false
  irdlFileFlag : String := ""
  logActionLocationFilter : List BreakpointManager := []
  emitBytecodeVersion : Option Int := none
  passPipelineCallback : Option (PassManager → LogicalResult × PassManager) := none
  listPassesFlag : Bool := false
  runReproducerFlag : Bool := false
  showDialectsFlag : Bool := false
  disableDiagnosticNotesFlag : Bool := true
  splitInputFileFlag : String := ""
  outputSplitMarkerFlag : String := ""
  useExplicitModuleFlag : Bool := false
  verifyDiagnosticsFlag : SourceMgrDiagnosticVerifierHandler.Level :=
    SourceMgrDiagnosticVerifierHandler.Level.None
  verifyPassesFlag : Bool := true
  disableVerifierOnParsingFlag : Bool := false
  verifyRoundtripFlag : Bool := false
  generateReproducerFileFlag : String := ""

namespace MlirOptMainConfig

/-- Fluent setter: allow operation with no registered dialects. -/
def allowUnregisteredDialects (c : MlirOptMainConfig) (allow : Bool) :
    MlirOptMainConfig :=
  { c with allowUnregisteredDialectsFlag := allow }

/-- Getter for the allow-unregistered-dialects option. -/
def shouldAllowUnregisteredDialects (c : MlirOptMainConfig) : Bool :=
  c.allowUnregisteredDialectsFlag

/-- Fluent setter: set the debug configuration to use. -/
def setDebugConfig (c : MlirOptMainConfig) (config : DebugConfig) :
    MlirOptMainConfig :=
  { c with debugConfig := config }

/-- Getter for the debug configuration. -/
def getDebugConfig (c : MlirOptMainConfig) : DebugConfig := c.debugConfig

/-- Fluent setter: print the pass-pipeline as text before executing. -/
def dumpPassPipeline (c : MlirOptMainConfig) (dump : Bool) :
    MlirOptMainConfig :=
  { c with dumpPassPipelineFlag := dump }

/-- Getter for the diagnostic verbosity level. -/
def getDiagnosticVerbosityLevel (c : MlirOptMainConfig) : VerbosityLevel :=
  c.diagnosticVerbosityLevelFlag

/-- Getter for the dump-pass-pipeline option. -/
def shouldDumpPassPipeline (c : MlirOptMainConfig) : Bool :=
  c.dumpPassPipelineFlag

/-- Fluent setter: set the output format to bytecode instead of textual
IR. -/
def emitBytecode (c : MlirOptMainConfig) (emit : Bool) : MlirOptMainConfig :=
  { c with emitBytecodeFlag := emit }

/-- Getter for the emit-bytecode option. -/
def shouldEmitBytecode (c : MlirOptMainConfig) : Bool := c.emitBytecodeFlag

/-- Getter for the elide-resource-data-from-bytecode option. -/
def shouldElideResourceDataFromBytecode (c : MlirOptMainConfig) : Bool :=
  c.elideResourceDataFromBytecodeFlag

/-- Getter for the show-notes option: the negation of the stored
`disableDiagnosticNotesFlag` (`MlirOptMain.h` line 102). -/
def shouldShowNotes (c : MlirOptMainConfig) : Bool :=
  !c.disableDiagnosticNotesFlag

/-- Fluent setter: set the IRDL file to load before processing the
input. -/
def setIrdlFile (c : MlirOptMainConfig) (file : String) : MlirOptMainConfig :=
  { c with irdlFileFlag := file }

/-- Getter for the IRDL file. -/
def getIrdlFile (c : MlirOptMainConfig) : String := c.irdlFileFlag

/-- Fluent setter: set the bytecode version to emit. -/
def setEmitBytecodeVersion (c : MlirOptMainConfig) (version : Int) :
    MlirOptMainConfig :=
  { c with emitBytecodeVersion := some version }

/-- Getter for the bytecode version to emit, absent when never set. -/
def bytecodeVersionToEmit (c : MlirOptMainConfig) : Option Int :=
  c.emitBytecodeVersion

/-- Fluent setter: set the callback to populate the pass manager
(`MlirOptMain.h` lines 121-125); overwrites the single
`passPipelineCallback` slot. -/
def setPassPipelineSetupFn (c : MlirOptMainConfig)
    (callback : PassManager → LogicalResult × PassManager) :
    MlirOptMainConfig :=
  { c with passPipelineCallback := some callback }

/-- Modelled from the spec: `setPassPipelineParser` (declared at
`MlirOptMain.h` line 128, defined outside `src/`) installs the pre-parsed
textual pipeline description as the pipeline source by storing a callback
that runs the parser's pipeline; the two sources are mutually exclusive
because they share the single `passPipelineCallback` slot, so installing
one replaces the other. -/
def setPassPipelineParser (c : MlirOptMainConfig)
    (p : PassPipelineCLParser) : MlirOptMainConfig :=
  { c with passPipelineCallback := some p.run }

/-- Populate the pass manager, if any callback was set (`MlirOptMain.h`
lines 131-135); the C++ mutation of `PassManager &pm` is state passing
here, so the function returns the result paired with the possibly updated
pass manager. -/
def setupPassPipeline (c : MlirOptMainConfig) (pm : PassManager) :
    LogicalResult × PassManager :=
  match c.passPipelineCallback with
  | some callback => callback pm
  | none => (success, pm)

/-- Fluent setter: list the registered passes and return. -/
def listPasses (c : MlirOptMainConfig) (list : Bool) : MlirOptMainConfig :=
  { c with listPassesFlag := list }

/-- Getter for the list-passes option. -/
def shouldListPasses (c : MlirOptMainConfig) : Bool := c.listPassesFlag

/-- Fluent setter: enable running the reproducer information stored in
resources. -/
def runReproducer (c : MlirOptMainConfig) (enableReproducer : Bool) :
    MlirOptMainConfig :=
  { c with runReproducerFlag := enableReproducer }

/-- Getter for the run-reproducer option. -/
def shouldRunReproducer (c : MlirOptMainConfig) : Bool := c.runReproducerFlag

/-- Fluent setter: show the registered dialects before trying to load the
input file. -/
def showDialects (c : MlirOptMainConfig) (s : Bool) : MlirOptMainConfig :=
  { c with showDialectsFlag := s }

/-- Getter for the show-dialects option. -/
def shouldShowDialects (c : MlirOptMainConfig) : Bool := c.showDialectsFlag

/-- Fluent setter: set the marker on which to split the input into
chunks; input is not split if empty. -/
def splitInputFile (c : MlirOptMainConfig) (splitMarker : String) :
    MlirOptMainConfig :=
  { c with splitInputFileFlag := splitMarker }

/-- Getter for the input split marker. -/
def inputSplitMarker (c : MlirOptMainConfig) : String := c.splitInputFileFlag

/-- Fluent setter: set whether to merge the output chunks into one file
using the given marker (the C++ overload taking a string). -/
def setOutputSplitMarker (c : MlirOptMainConfig) (splitMarker : String) :
    MlirOptMainConfig :=
  { c with outputSplitMarkerFlag := splitMarker }

/-- Getter for the output split marker (the nullary C++ overload). -/
def outputSplitMarker (c : MlirOptMainConfig) : String :=
  c.outputSplitMarkerFlag

/-- Fluent setter: disable implicit addition of a top-level module op
during parsing. -/
def useExplicitModule (c : MlirOptMainConfig) (explicitModule : Bool) :
    MlirOptMainConfig :=
  { c with useExplicitModuleFlag := explicitModule }

/-- Getter for the use-explicit-module option. -/
def shouldUseExplicitModule (c : MlirOptMainConfig) : Bool :=
  c.useExplicitModuleFlag

/-- Fluent setter: set the diagnostic-verification level. -/
def verifyDiagnostics (c : MlirOptMainConfig)
    (verify : SourceMgrDiagnosticVerifierHandler.Level) : MlirOptMainConfig :=
  { c with verifyDiagnosticsFlag := verify }

/-- Getter: diagnostic verification is enabled when the stored level is
not `None` (`MlirOptMain.h` lines 194-197). -/
def shouldVerifyDiagnostics (c : MlirOptMainConfig) : Bool :=
  decide (c.verifyDiagnosticsFlag ≠ SourceMgrDiagnosticVerifierHandler.Level.None)

/-- Getter for the diagnostic-verification level. -/
def verifyDiagnosticsLevel (c : MlirOptMainConfig) :
    SourceMgrDiagnosticVerifierHandler.Level :=
  c.verifyDiagnosticsFlag

/-- Fluent setter: set whether to run the verifier after each
transformation pass. -/
def verifyPasses (c : MlirOptMainConfig) (verify : Bool) : MlirOptMainConfig :=
  { c with verifyPassesFlag := verify }

/-- Getter for the verify-passes option. -/
def shouldVerifyPasses (c : MlirOptMainConfig) : Bool := c.verifyPassesFlag

/-- Fluent setter: set whether to run the verifier on parsing; stored as
its negation in `disableVerifierOnParsingFlag` (`MlirOptMain.h` lines
211-214). -/
def verifyOnParsing (c : MlirOptMainConfig) (verify : Bool) :
    MlirOptMainConfig :=
  { c with disableVerifierOnParsingFlag := !verify }

/-- Getter for the verify-on-parsing option: the negation of the stored
flag. -/
def shouldVerifyOnParsing (c : MlirOptMainConfig) : Bool :=
  !c.disableVerifierOnParsingFlag

/-- Fluent setter: set whether to verify that the input IR round-trips
perfectly. -/
def verifyRoundtrip (c : MlirOptMainConfig) (verify : Bool) :
    MlirOptMainConfig :=
  { c with verifyRoundtripFlag := verify }

/-- Getter for the verify-roundtrip option. -/
def shouldVerifyRoundtrip (c : MlirOptMainConfig) : Bool :=
  c.verifyRoundtripFlag

/-- Getter for the reproducer output filename. -/
def getReproducerFilename (c : MlirOptMainConfig) : String :=
  c.generateReproducerFileFlag

end MlirOptMainConfig

/-- `EXIT_SUCCESS` from `<cstdlib>`. -/
def EXIT_SUCCESS : Int := 0

/-- `EXIT_FAILURE` from `<cstdlib>`. -/
def EXIT_FAILURE : Int := 1

/-- Helper wrapper to return the result of `MlirOptMain` directly from
`main` (`MlirOptMain.h` lines 354-356). -/
def asMainReturnCode (r : LogicalResult) : Int :=
  if r.succeeded then EXIT_SUCCESS else EXIT_FAILURE

/-- The tuple of all getter observations of a `MlirOptMainConfig`, one
field per public accessor of the C++ class (plus the
`passPipelineCallback` slot, observable through `setupPassPipeline`);
used to state which observations a fluent setter may change. -/
structure GetterView where
  allowUnregisteredDialects : Bool
  debugConfig : DebugConfig
  diagnosticVerbosityLevel : VerbosityLevel
  dumpPassPipeline : Bool
  emitBytecode : Bool
  elideResourceData : Bool
  showNotes : Bool
  irdlFile : String
  bytecodeVersion : Option Int
  pipelineCallback : Option (PassManager → LogicalResult × PassManager)
  listPasses : Bool
  runReproducer : Bool
  showDialects : Bool
  inputSplitMarker : String
  outputSplitMarker : String
  useExplicitModule : Bool
  verifyDiagnosticsLevel : SourceMgrDiagnosticVerifierHandler.Level
  verifyPasses : Bool
  verifyOnParsing : Bool
  verifyRoundtrip : Bool
  reproducerFilename : String

/-- Collects every getter of a configuration into one `GetterView`. -/
def MlirOptMainConfig.view (c : MlirOptMainConfig) : GetterView where
  allowUnregisteredDialects := c.shouldAllowUnregisteredDialects
  debugConfig := c.getDebugConfig
  diagnosticVerbosityLevel := c.getDiagnosticVerbosityLevel
  dumpPassPipeline := c.shouldDumpPassPipeline
  emitBytecode := c.shouldEmitBytecode
  elideResourceData := c.shouldElideResourceDataFromBytecode
  showNotes := c.shouldShowNotes
  irdlFile := c.getIrdlFile
  bytecodeVersion := c.bytecodeVersionToEmit
  pipelineCallback := c.passPipelineCallback
  listPasses := c.shouldListPasses
  runReproducer := c.shouldRunReproducer
  showDialects := c.shouldShowDialects
  inputSplitMarker := c.inputSplitMarker
  outputSplitMarker := c.outputSplitMarker
  useExplicitModule := c.shouldUseExplicitModule
  verifyDiagnosticsLevel := c.verifyDiagnosticsLevel
  verifyPasses := c.shouldVerifyPasses
  verifyOnParsing := c.shouldVerifyOnParsing
  verifyRoundtrip := c.shouldVerifyRoundtrip
  reproducerFilename := c.getReproducerFilename

/-- One installation of a pipeline source into a config: either a setup
callback (`setPassPipelineSetupFn`) or a pre-parsed textual description
(`setPassPipelineParser`). -/
inductive PipelineInstall where
  | setupFn (f : PassManager → LogicalResult × PassManager)
  | fromParser (p : PassPipelineCLParser)

/-- Applies one pipeline-source installation to a configuration. -/
def applyPipelineInstall (c : MlirOptMainConfig) :
    PipelineInstall → MlirOptMainConfig
  | PipelineInstall.setupFn f => c.setPassPipelineSetupFn f
  | PipelineInstall.fromParser p => c.setPassPipelineParser p

/-- Applies a sequence of pipeline-source installations in order. -/
def applyPipelineInstalls (c : MlirOptMainConfig)
    (l : List PipelineInstall) : MlirOptMainConfig :=
  l.foldl applyPipelineInstall c

/-- The callback an installation stores into the single
`passPipelineCallback` slot. -/
def PipelineInstall.installedCallback :
    PipelineInstall → (PassManager → LogicalResult × PassManager)
  | PipelineInstall.setupFn f => f
  | PipelineInstall.fromParser p => p.run

/-- A concrete pipeline callback used to witness `setupPassPipeline_spec`:
appends one stage name to the pass manager and succeeds. -/
def sampleCallback : PassManager → LogicalResult × PassManager :=
  fun pm => (success, { pm with passes := pm.passes ++ ["canonicalize"] })

/-- C1 (counterexample): for a default-constructed `MlirOptMainConfig`,
`shouldShowNotes` does not return `true`: `disableDiagnosticNotesFlag`
defaults to `true` (`MlirOptMain.h` line 274), so the getter at line 102
returns `false`, contrary to the claimed default. -/
theorem default_shouldShowNotes_not_true :
    ¬ (({} : MlirOptMainConfig).shouldShowNotes = true) := by
  intro h
  exact Bool.false_ne_true h

/-- C1 (amended): for a default-constructed `MlirOptMainConfig` (no setter
called), `shouldShowNotes` returns `false`: note-severity diagnostics are
excluded by default. -/
theorem default_shouldShowNotes_eq_false :
    ({} : MlirOptMainConfig).shouldShowNotes = false := rfl

/-- C2: for a default-constructed `MlirOptMainConfig`,
`shouldVerifyPasses` returns `true`, `shouldVerifyOnParsing` returns
`true`, and `shouldVerifyRoundtrip` returns `false`. -/
theorem default_verify_flags :
    ({} : MlirOptMainConfig).shouldVerifyPasses = true ∧
      ({} : MlirOptMainConfig).shouldVerifyOnParsing = true ∧
      ({} : MlirOptMainConfig).shouldVerifyRoundtrip = false :=
  ⟨rfl, rfl, rfl⟩

/-- C3: for every `MlirOptMainConfig`, `shouldVerifyDiagnostics` returns
`true` exactly when `verifyDiagnosticsLevel` is not the level `None`; in
particular a default-constructed config has diagnostic verification
disabled. -/
theorem shouldVerifyDiagnostics_iff_level_ne_none :
    (∀ c : MlirOptMainConfig,
      c.shouldVerifyDiagnostics = true ↔
        c.verifyDiagnosticsLevel ≠
          SourceMgrDiagnosticVerifierHandler.Level.None) ∧
      ({} : MlirOptMainConfig).shouldVerifyDiagnostics = false := by
  constructor
  · intro c
    simp [MlirOptMainConfig.shouldVerifyDiagnostics,
      MlirOptMainConfig.verifyDiagnosticsLevel]
  · rfl

/-- C4: for every `LogicalResult` `r`, `asMainReturnCode r` returns
`EXIT_SUCCESS`, which is 0, when `r` succeeded, and the nonzero value
`EXIT_FAILURE` when `r` failed. -/
theorem asMainReturnCode_spec (r : LogicalResult) :
    (r.succeeded = true →
      asMainReturnCode r = EXIT_SUCCESS ∧ EXIT_SUCCESS = 0) ∧
      (r.succeeded = false →
        asMainReturnCode r = EXIT_FAILURE ∧ asMainReturnCode r ≠ 0) := by
  obtain ⟨b⟩ := r
  cases b <;> decide

/-- Witness for `asMainReturnCode_spec` at the two concrete results. -/
theorem asMainReturnCode_spec_witness :
    (asMainReturnCode success = EXIT_SUCCESS ∧ EXIT_SUCCESS = 0) ∧
      (asMainReturnCode failure = EXIT_FAILURE ∧ asMainReturnCode failure ≠ 0) :=
  ⟨(asMainReturnCode_spec success).1 rfl, (asMainReturnCode_spec failure).2 rfl⟩

/-- C5: the two pipeline sources of a `MlirOptMainConfig` are mutually
exclusive: after any sequence of installations (`setPassPipelineSetupFn`
or `setPassPipelineParser`, interleaved arbitrarily), the single
`passPipelineCallback` slot holds exactly the callback of the most
recently installed source — installing one replaces the other, so the
callback and the parser are never both active at once. -/
theorem pipeline_source_last_install_wins (c : MlirOptMainConfig)
    (l : List PipelineInstall) (i : PipelineInstall) :
    (applyPipelineInstalls c (l ++ [i])).passPipelineCallback =
      some i.installedCallback := by
  rw [applyPipelineInstalls, List.foldl_append]
  cases i <;> rfl

/-- C6: for a default-constructed `MlirOptMainConfig`, `inputSplitMarker`
and `outputSplitMarker` both return the empty string and
`bytecodeVersionToEmit` returns an absent optional. -/
theorem default_split_markers_and_bytecode_version :
    ({} : MlirOptMainConfig).inputSplitMarker = "" ∧
      ({} : MlirOptMainConfig).outputSplitMarker = "" ∧
      ({} : MlirOptMainConfig).bytecodeVersionToEmit = none :=
  ⟨rfl, rfl, rfl⟩

/-- C7: every fluent option setter returns the configuration with only
the option it names changed: each conjunct states that the full
`GetterView` of the returned configuration equals the original view with
exactly the setter's own observation replaced by the argument (for the
two pipeline-source setters, only the `passPipelineCallback` slot). -/
theorem fluent_setters_frame :
    (∀ (c : MlirOptMainConfig) (v : Bool),
      (c.allowUnregisteredDialects v).view =
        { c.view with allowUnregisteredDialects := v }) ∧
      (∀ (c : MlirOptMainConfig) (d : DebugConfig),
        (c.setDebugConfig d).view = { c.view with debugConfig := d }) ∧
      (∀ (c : MlirOptMainConfig) (v : Bool),
        (c.dumpPassPipeline v).view = { c.view with dumpPassPipeline := v }) ∧
      (∀ (c : MlirOptMainConfig) (v : Bool),
        (c.emitBytecode v).view = { c.view with emitBytecode := v }) ∧
      (∀ (c : MlirOptMainConfig) (s : String),
        (c.setIrdlFile s).view = { c.view with irdlFile := s }) ∧
      (∀ (c : MlirOptMainConfig) (n : Int),
        (c.setEmitBytecodeVersion n).view =
          { c.view with bytecodeVersion := some n }) ∧
      (∀ (c : MlirOptMainConfig)
          (f : PassManager → LogicalResult × PassManager),
        (c.setPassPipelineSetupFn f).view =
          { c.view with pipelineCallback := some f }) ∧
      (∀ (c : MlirOptMainConfig) (p : PassPipelineCLParser),
        (c.setPassPipelineParser p).view =
          { c.view with pipelineCallback := some p.run }) ∧
      (∀ (c : MlirOptMainConfig) (v : Bool),
        (c.listPasses v).view = { c.view with listPasses := v }) ∧
      (∀ (c : MlirOptMainConfig) (v : Bool),
        (c.runReproducer v).view = { c.view with runReproducer := v }) ∧
      (∀ (c : MlirOptMainConfig) (v : Bool),
        (c.showDialects v).view = { c.view with showDialects := v }) ∧
      (∀ (c : MlirOptMainConfig) (s : String),
        (c.splitInputFile s).view = { c.view with inputSplitMarker := s }) ∧
      (∀ (c : MlirOptMainConfig) (s : String),
        (c.setOutputSplitMarker s).view =
          { c.view with outputSplitMarker := s }) ∧
      (∀ (c : MlirOptMainConfig) (v : Bool),
        (c.useExplicitModule v).view =
          { c.view with useExplicitModule := v }) ∧
      (∀ (c : MlirOptMainConfig)
          (lvl : SourceMgrDiagnosticVerifierHandler.Level),
        (c.verifyDiagnostics lvl).view =
          { c.view with verifyDiagnosticsLevel := lvl }) ∧
      (∀ (c : MlirOptMainConfig) (v : Bool),
        (c.verifyPasses v).view = { c.view with verifyPasses := v }) ∧
      (∀ (c : MlirOptMainConfig) (v : Bool),
        (c.verifyOnParsing v).view = { c.view with verifyOnParsing := v }) ∧
      (∀ (c : MlirOptMainConfig) (v : Bool),
        (c.verifyRoundtrip v).view = { c.view with verifyRoundtrip := v }) :=
  ⟨fun _ _ => rfl, fun _ _ => rfl, fun _ _ => rfl, fun _ _ => rfl,
    fun _ _ => rfl, fun _ _ => rfl, fun _ _ => rfl, fun _ _ => rfl,
    fun _ _ => rfl, fun _ _ => rfl, fun _ _ => rfl, fun _ _ => rfl,
    fun _ _ => rfl, fun _ _ => rfl, fun _ _ => rfl, fun _ _ => rfl,
    fun _ v => by cases v <;> rfl, fun _ _ => rfl⟩

/-- C8: for every `MlirOptMainConfig` `c` and boolean `v`,
`(c.verifyOnParsing v).shouldVerifyOnParsing = v`: the setter/getter pair
round-trips exactly even though the option is stored internally as its
negation in `disableVerifierOnParsingFlag`. -/
theorem verifyOnParsing_roundtrip :
    ∀ (c : MlirOptMainConfig) (v : Bool),
      (c.verifyOnParsing v).shouldVerifyOnParsing = v ∧
        (c.verifyOnParsing v).disableVerifierOnParsingFlag = !v := by
  intro c v
  cases v <;> exact ⟨rfl, rfl⟩

/-- C9: when no pass-pipeline callback is installed, `setupPassPipeline`
returns success and leaves the pass manager unmodified; when a callback
is installed, it returns exactly the result of applying that callback to
the pass manager. -/
theorem setupPassPipeline_spec (c : MlirOptMainConfig) (pm : PassManager) :
    (c.passPipelineCallback = none →
      c.setupPassPipeline pm = (success, pm)) ∧
      ∀ f, c.passPipelineCallback = some f →
        c.setupPassPipeline pm = f pm := by
  constructor
  · intro h
    simp [MlirOptMainConfig.setupPassPipeline, h]
  · intro f h
    simp [MlirOptMainConfig.setupPassPipeline, h]

/-- Witness for `setupPassPipeline_spec`: the default config (no
callback) leaves a default pass manager unchanged and succeeds, and a
config with `sampleCallback` installed returns exactly
`sampleCallback` applied to the pass manager. -/
theorem setupPassPipeline_spec_witness :
    ({} : MlirOptMainConfig).setupPassPipeline {} = (success, {}) ∧
      (({} : MlirOptMainConfig).setPassPipelineSetupFn
          sampleCallback).setupPassPipeline {} = sampleCallback {} :=
  ⟨(setupPassPipeline_spec {} {}).1 rfl,
    (setupPassPipeline_spec
        (({} : MlirOptMainConfig).setPassPipelineSetupFn sampleCallback)
        {}).2 sampleCallback rfl⟩

/-- C10: for a default-constructed `MlirOptMainConfig`,
`getDiagnosticVerbosityLevel` returns the most verbose level,
`ErrorsWarningsAndRemarks`. -/
theorem default_diagnostic_verbosity_level :
    ({} : MlirOptMainConfig).getDiagnosticVerbosityLevel =
      VerbosityLevel.ErrorsWarningsAndRemarks := rfl

end mlir
